import Mathlib

/- Verification development for the x-wrapped streaming report generator.

   Source files modelled:
   * src/api/index.py — the current orchestrator (generate_wrapped_streaming,
     TOOL_MESSAGES, get_tool_message, tool_call_counts, the WrappedResponse
     fallback dictionary, the format prompt).
   * src/api/wrapped/stream.py — the legacy pipeline variant (get_month_range,
     the analysis-chunk streaming loop and the brace-span JSON recovery).

   The remote model provider (xai_sdk) is an opaque collaborator: its behaviour
   is an input of the model (the list of streamed chunks, whether the call
   raises, and the structured-parse outcome).  Machine work the repository
   itself performs (string formatting, dict updates, json.loads, regex span
   extraction, calendar.monthrange arithmetic) is embedded directly. -/

/-- The character x7b; named so that brace characters never appear literally. -/
def lbraceChar : Char := Char.ofNat 123

/-- The character x7d. -/
def rbraceChar : Char := Char.ofNat 125

/-- JSON values as produced by Python json.loads, restricted to the fragment
the repository exercises: numbers are integers (floats are out of scope; the
embedded parser rejects them, narrowing only the domain on which parsing
succeeds). Objects are insertion-ordered key/value lists, as CPython dicts. -/
inductive Json where
  | null : Json
  | bool (b : Bool) : Json
  | num (n : Int) : Json
  | str (s : String) : Json
  | arr (items : List Json) : Json
  | obj (members : List (String × Json)) : Json

/-- CPython dict assignment d[k] = v: an existing key keeps its position and
gets the new value; a new key is appended at the end. -/
def setKeyList (kvs : List (String × Json)) (k : String) (v : Json) : List (String × Json) :=
  match kvs with
  | [] => [(k, v)]
  | (k', v') :: rest => if k' == k then (k', v) :: rest else (k', v') :: setKeyList rest k v

/-- dict assignment on a Json value (only meaningful on objects; the parser
only hands objects to this operation). -/
def Json.setKey : Json → String → Json → Json
  | .obj kvs, k, v => .obj (setKeyList kvs k v)
  | j, _, _ => j

/-- Key lookup in a Json object (first occurrence; parsed objects have unique
keys because parsing applies dict-assignment semantics). -/
def Json.getKey? : Json → String → Option Json
  | .obj kvs, k => kvs.lookup k
  | _, _ => none

def Json.isNull : Json → Bool
  | .null => true
  | _ => false

/-- The whitespace characters json.loads skips between tokens. -/
def isJsonWs (c : Char) : Bool := c == ' ' || c == '\t' || c == '\n' || c == '\r'

/-- JSON string escapes handled by json.loads (the \uXXXX form is not
modelled; inputs using it simply fall outside the embedded parser's domain). -/
def escapeChar : Char → Option Char
  | '"' => some '"'
  | '/' => some '/'
  | '\\' => some '\\'
  | 'b' => some (Char.ofNat 8)
  | 'f' => some (Char.ofNat 12)
  | 'n' => some (Char.ofNat 10)
  | 'r' => some (Char.ofNat 13)
  | 't' => some (Char.ofNat 9)
  | _ => none

/-- Parse the body of a JSON string literal (after the opening quote);
returns the decoded characters and the input after the closing quote. -/
def parseStringBody : List Char → Option (List Char × List Char)
  | [] => none
  | c :: rest =>
    if c == '"' then some ([], rest)
    else if c == '\\' then
      match rest with
      | [] => none
      | e :: rest2 =>
        match escapeChar e with
        | none => none
        | some d =>
          match parseStringBody rest2 with
          | none => none
          | some (s, r) => some (d :: s, r)
    else
      match parseStringBody rest with
      | none => none
      | some (s, r) => some (c :: s, r)

/-- Numeric value of a digit run. -/
def digitsToNat (ds : List Char) : Nat :=
  ds.foldl (fun acc c => acc * 10 + (c.toNat - 48)) 0

/-- Parse a JSON integer numeral at the head of the input, with json.loads
number syntax: optional minus, no leading zeros; inputs continuing with a
fraction or exponent are rejected (floats are outside the embedded fragment). -/
def parseNumberFrom (cs : List Char) : Option (Int × List Char) :=
  let p : Bool × List Char :=
    match cs with
    | c :: rest => if c == '-' then (true, rest) else (false, cs)
    | [] => (false, cs)
  match p.2 with
  | [] => none
  | d :: _ =>
    if !d.isDigit then none
    else
      let ds := p.2.takeWhile Char.isDigit
      let rest := p.2.dropWhile Char.isDigit
      if ds.length > 1 && d == '0' then none
      else
        let n : Int := Int.ofNat (digitsToNat ds)
        let value : Int := if p.1 then -n else n
        match rest with
        | c :: _ => if c == '.' || c == 'e' || c == 'E' then none else some (value, rest)
        | [] => some (value, rest)

/-- Parser modes of the single fuel-indexed recursive-descent JSON parser
(the fuel argument decreases structurally on every recursive call, so the
parser evaluates inside the kernel): a whole value, the remainder of an
object after its opening brace, the member loop with its accumulated members,
the remainder of an array after its opening bracket, and the item loop. -/
inductive JMode where
  | value : JMode
  | objRest : JMode
  | members : List (String × Json) → JMode
  | arrRest : JMode
  | items : List Json → JMode

/-- Recursive-descent parser for the json.loads grammar on the
integer-numeral fragment.  Member parsing applies dict-assignment semantics
for duplicate keys (last value wins, first position kept), as json.loads
builds a dict. -/
def parseJ : Nat → JMode → List Char → Option (Json × List Char)
  | 0, _, _ => none
  | Nat.succ fuel, JMode.value, input =>
    match input.dropWhile isJsonWs with
    | [] => none
    | c :: rest =>
      if c == lbraceChar then parseJ fuel JMode.objRest rest
      else if c == '[' then parseJ fuel JMode.arrRest rest
      else if c == '"' then
        match parseStringBody rest with
        | some (s, r) => some (Json.str (String.mk s), r)
        | none => none
      else if c == 't' then
        match c :: rest with
        | 't' :: 'r' :: 'u' :: 'e' :: r => some (Json.bool true, r)
        | _ => none
      else if c == 'f' then
        match c :: rest with
        | 'f' :: 'a' :: 'l' :: 's' :: 'e' :: r => some (Json.bool false, r)
        | _ => none
      else if c == 'n' then
        match c :: rest with
        | 'n' :: 'u' :: 'l' :: 'l' :: r => some (Json.null, r)
        | _ => none
      else
        match parseNumberFrom (c :: rest) with
        | some (n, r) => some (Json.num n, r)
        | none => none
  | Nat.succ fuel, JMode.objRest, input =>
    match input.dropWhile isJsonWs with
    | [] => none
    | c :: rest =>
      if c == rbraceChar then some (Json.obj [], rest)
      else parseJ fuel (JMode.members []) (c :: rest)
  | Nat.succ fuel, JMode.members acc, input =>
    match input.dropWhile isJsonWs with
    | [] => none
    | c :: rest =>
      if c == '"' then
        match parseStringBody rest with
        | none => none
        | some (k, r1) =>
          match r1.dropWhile isJsonWs with
          | ':' :: r2 =>
            match parseJ fuel JMode.value r2 with
            | none => none
            | some (v, r3) =>
              match r3.dropWhile isJsonWs with
              | ',' :: r4 => parseJ fuel (JMode.members (setKeyList acc (String.mk k) v)) r4
              | c2 :: r4 =>
                if c2 == rbraceChar then
                  some (Json.obj (setKeyList acc (String.mk k) v), r4)
                else none
              | [] => none
          | _ => none
      else none
  | Nat.succ fuel, JMode.arrRest, input =>
    match input.dropWhile isJsonWs with
    | [] => none
    | c :: rest =>
      if c == ']' then some (Json.arr [], rest)
      else parseJ fuel (JMode.items []) (c :: rest)
  | Nat.succ fuel, JMode.items acc, input =>
    match parseJ fuel JMode.value input with
    | none => none
    | some (v, r) =>
      match r.dropWhile isJsonWs with
      | ',' :: r2 => parseJ fuel (JMode.items (acc ++ [v])) r2
      | c :: r2 => if c == ']' then some (Json.arr (acc ++ [v]), r2) else none
      | [] => none

/-- Parse one JSON value at the head of the input. -/
def parseValue (fuel : Nat) (cs : List Char) : Option (Json × List Char) :=
  parseJ fuel JMode.value cs

/-- json.loads: parse a whole string as one JSON value; trailing data other
than whitespace is an error. -/
def jsonLoads (s : String) : Option Json :=
  match parseValue ((s.length + 1) * 2) s.toList with
  | some (v, rest) => if (rest.dropWhile isJsonWs).isEmpty then some v else none
  | none => none

/-- Embeds re.search of the pattern brace-anything-brace (src/api/wrapped/stream.py
line 154): the regex is greedy, so a match, when one exists, runs from the first
opening brace of the text to the last closing brace of the text; there is a match
exactly when some closing brace occurs after the first opening brace. -/
def extractSpanChars (cs : List Char) : Option (List Char) :=
  match cs.drop ((cs.takeWhile (fun c => !(c == lbraceChar))).length) with
  | [] => none
  | c :: rest =>
    match ((c :: rest).reverse).dropWhile (fun ch => !(ch == rbraceChar)) with
    | [] => none
    | d :: ds => some ((d :: ds).reverse)

/-- The matched span of re.search on a String, as text. -/
def extractJson (s : String) : Option String :=
  match extractSpanChars s.toList with
  | some cs => some (String.mk cs)
  | none => none

/-- Embeds the recovery tail of src/api/wrapped/stream.py (lines 152-175):
search the text for the outermost brace span; on a successful json.loads of the
span, merge the separately collected monthly summaries and citations into the
parsed object; on parse failure or no span, build the fallback object with the
raw text under the key analysis. -/
def recoverV1 (fullAnalysisText : String) (monthlySummaries : Json) (citations : Json) : Json :=
  let fallback : Json := Json.obj
    [("analysis", Json.str fullAnalysisText),
     ("monthly_summaries", monthlySummaries),
     ("citations", citations)]
  match extractJson fullAnalysisText with
  | some span =>
    match jsonLoads span with
    | some w => (w.setKey "monthly_summaries" monthlySummaries).setKey "citations" citations
    | none => fallback
  | none => fallback

/-- calendar.isleap from CPython: Gregorian leap-year rule. -/
def isleap (year : Nat) : Bool :=
  year % 4 == 0 && (year % 100 != 0 || year % 400 == 0)

/-- calendar.mdays from CPython (index 0 unused). -/
def mdays : List Nat := [0, 31, 28, 31, 30, 31, 30, 31, 31, 30, 31, 30, 31]

/-- The ndays component of calendar.monthrange:
mdays[month] plus one for February of a leap year. -/
def monthrange_ndays (year month : Nat) : Nat :=
  mdays.getD month 0 + (if month == 2 && isleap year then 1 else 0)

/-- Python format {:02d} for the month arguments used here (always < 100). -/
def pad2 (n : Nat) : String :=
  if n < 10 then "0" ++ toString n else toString n

/-- Embeds get_month_range of src/api/wrapped/stream.py (lines 12-18):
start date "{year}-{month:02d}-01" and end date "{year}-{month:02d}-{last_day}"
with last_day from calendar.monthrange.  (Python's monthrange also computes the
weekday of day 1, which requires 1 <= year <= 9999; the returned day count is
the arithmetic embedded here.) -/
def get_month_range (month : Nat) (year : Nat) : String × String :=
  (toString year ++ "-" ++ pad2 month ++ "-01",
   toString year ++ "-" ++ pad2 month ++ "-" ++ toString (monthrange_ndays year month))

/-- Modelled from the spec claim wording, independently of the code: the true
last calendar day of a Gregorian month — 29 for February in a leap year, 28
otherwise, 30 for April, June, September, November, and 31 for the rest. -/
def specLeapYear (year : Nat) : Bool :=
  (year % 4 == 0 && !(year % 100 == 0)) || year % 400 == 0

/-- Spec-side last calendar day of a month. -/
def specLastDay (year month : Nat) : Nat :=
  if month == 2 then (if specLeapYear year then 29 else 28)
  else if month == 4 || month == 6 || month == 9 || month == 11 then 30
  else 31

/-- A wire event of the SSE protocol (src/api/index.py): each yielded line is
the JSON encoding of one of these shapes.  The month field of the legacy
variant's progress events is not needed by any modelled claim. -/
inductive Event where
  | progress (message : String) (step : Nat) (total : Nat) : Event
  | analysisChunk (body : String) : Event
  | complete (data : Json) : Event
  | error (message : String) : Event

def Event.isProgress : Event → Bool
  | .progress .. => true
  | _ => false

def Event.isAnalysisChunk : Event → Bool
  | .analysisChunk _ => true
  | _ => false

def Event.isComplete : Event → Bool
  | .complete _ => true
  | _ => false

def Event.isError : Event → Bool
  | .error _ => true
  | _ => false

/-- A terminal event: complete or error. -/
def Event.isTerminal (e : Event) : Bool := e.isComplete || e.isError

/-- One chunk delivered by chat.stream() of the remote client: zero or more
tool-invocation notices plus a text delta (empty string when absent, matching
Python truthiness of chunk.content). -/
structure Chunk where
  tool_calls : List String
  content : String

/-- TOOL_MESSAGES of src/api/index.py (lines 118-161) as an optional-valued map from
tool identifier to its rotating message table. -/
def TOOL_MESSAGES (name : String) : Option (List String) :=
  if name == "x_keyword_search" then
    some ["🔍 Diving into your posts...",
          "📜 Scrolling through your timeline...",
          "🕵️ Finding your hidden gems...",
          "✨ Uncovering your best moments..."]
  else if name == "x_semantic_search" then
    some ["🧠 Understanding your vibes...",
          "💭 Reading between the lines...",
          "🎯 Finding posts that hit different..."]
  else if name == "x_user_search" then
    some ["👤 Looking up your profile...",
          "🔎 Finding your account..."]
  else if name == "x_thread_fetch" then
    some ["🧵 Pulling up your threads...",
          "📖 Reading your stories..."]
  else if name == "code_execution" then
    some ["🧮 Crunching the numbers...",
          "📊 Calculating your stats...",
          "💯 Running the math...",
          "📈 Analyzing your data..."]
  else if name == "view_x_video" then
    some ["🎬 Watching your videos...",
          "📹 Reviewing your clips..."]
  else if name == "view_image" then
    some ["🖼️ Checking out your pics...",
          "📸 Admiring your photos..."]
  else if name == "web_search" then
    some ["🌐 Searching the web...",
          "🔗 Finding more context..."]
  else if name == "browse_page" then
    some ["📄 Reading more details...",
          "🔍 Digging deeper..."]
  else none

/-- Python str.replace of every underscore by a space. -/
def underscoreToSpace (s : String) : String :=
  String.mk (s.toList.map (fun c => if c == '_' then ' ' else c))

/-- Helper for Python str.title: a letter is uppercased when the previous
character was not a letter, lowercased otherwise. -/
def pyTitleAux : Bool → List Char → List Char
  | _, [] => []
  | prevCased, c :: cs =>
    if c.isAlpha then
      (if prevCased then c.toLower else c.toUpper) :: pyTitleAux true cs
    else
      c :: pyTitleAux false cs

/-- Python str.title on the identifier alphabet used by tool names. -/
def pyTitle (s : String) : String := String.mk (pyTitleAux false s.toList)

/-- The fallback message of get_tool_message for an unlisted tool
identifier (src/api/index.py line 169). -/
def genericToolMessage (toolName : String) : String :=
  "🔄 " ++ pyTitle (underscoreToSpace toolName) ++ "..."

/-- get_tool_message of src/api/index.py (lines 167-172): look up the message
table (default: the one-element generic table), read the per-tool counter
(default 0), bump it, and return table[count mod len].  The counter dict is
modelled as a total function with default 0. -/
def get_tool_message (counts : String → Nat) (toolName : String) :
    String × (String → Nat) :=
  let messages := (TOOL_MESSAGES toolName).getD [genericToolMessage toolName]
  let count := counts toolName
  (messages.getD (count % messages.length) "",
   fun n => if n == toolName then count + 1 else counts n)

/-- The counter dict right after tool_call_counts.clear(). -/
def emptyCounts : String → Nat := fun _ => 0

/-- tool_call_counts.clear() of src/api/index.py line 211: the process-global
dict is emptied at the start of each request. -/
def clearCounts (_counts : String → Nat) : String → Nat := fun _ => 0

/-- Run a sequence of get_tool_message calls, returning the (toolName,
message) log and the final counter state. -/
def runToolCalls (counts : String → Nat) : List String → List (String × String) × (String → Nat)
  | [] => ([], counts)
  | n :: ns =>
    let r := get_tool_message counts n
    let rest := runToolCalls r.2 ns
    ((n, r.1) :: rest.1, rest.2)

/-- The messages produced for the invocations of one given tool within one
request (counters start cleared), in invocation order. -/
def invocationMessages (t : String) (calls : List String) : List String :=
  (((runToolCalls emptyCounts calls).1).filter (fun p => p.1 == t)).map Prod.snd

/-- The get_tool_message log of the second of two sequential requests, with
the process-global counter dict threaded through both requests and
tool_call_counts.clear() executed at the start of each request, exactly as in
src/api/index.py. -/
def secondRequestLog (calls1 calls2 : List String) : List (String × String) :=
  (runToolCalls (clearCounts (runToolCalls (clearCounts emptyCounts) calls1).2) calls2).1

/-- The progress events emitted for the tool_calls list of one stream chunk
(src/api/index.py lines 314-317), threading the counter state. -/
def processToolCalls (counts : String → Nat) : List String → List Event × (String → Nat)
  | [] => ([], counts)
  | n :: ns =>
    let r := get_tool_message counts n
    let rest := processToolCalls r.2 ns
    (Event.progress r.1 1 4 :: rest.1, rest.2)

/-- The events of the streaming loop (src/api/index.py lines 312-321): per
chunk, first one progress event per tool call, then one analysis_chunk event
when the text delta is non-empty, in arrival order. -/
def streamEventsAux (counts : String → Nat) : List Chunk → List Event
  | [] => []
  | c :: cs =>
    let r := processToolCalls counts c.tool_calls
    r.1 ++ (if !(c.content == "") then [Event.analysisChunk c.content] else [])
        ++ streamEventsAux r.2 cs

/-- raw_analysis of src/api/index.py line 324: the concatenation of exactly
the non-empty text deltas collected during the stream. -/
def raw_analysis (cs : List Chunk) : String :=
  String.join ((cs.map Chunk.content).filter (fun s => !(s == "")))

/-- The hand-built fallback dictionary of src/api/index.py (lines 444-488),
used when format_chat.parse raises: every declared WrappedResponse field is
present with a static default. -/
def fallback_wrapped_data (username : String) (currentYear : Nat) : Json :=
  Json.obj
    [("personality", Json.obj
       [("archetype", Json.str "The Storyteller"),
        ("description", Json.str "Based on the content found, this user shares their perspective on X in their own unique way."),
        ("traits", Json.arr [Json.str "Expressive", Json.str "Engaged", Json.str "Authentic"]),
        ("spirit_emoji", Json.str "✨")]),
     ("vibe", Json.obj
       [("positive_percentage", Json.num 40),
        ("neutral_percentage", Json.num 40),
        ("negative_percentage", Json.num 20),
        ("overall_vibe", Json.str "Balanced"),
        ("vibe_description", Json.str "A mix of perspectives and moods throughout the year.")]),
     ("themes", Json.arr []),
     ("voice", Json.obj
       [("style_summary", Json.str "Unable to fully characterize writing style from available content."),
        ("vocabulary_level", Json.str "Conversational"),
        ("tone", Json.str "Authentic"),
        ("signature_phrases", Json.arr []),
        ("emoji_style", Json.str "Moderate"),
        ("post_length_style", Json.str "Mixed")]),
     ("content_mix", Json.obj
       [("categories", Json.arr []),
        ("primary_mode", Json.str "Original thinker"),
        ("engagement_style", Json.str "Active participant")]),
     ("highlights", Json.arr []),
     ("greatest_hits", Json.arr []),
     ("year_story", Json.str ("@" ++ username ++ "\x27s " ++ toString currentYear ++ " on X was a journey of authentic expression. Through various topics and conversations, they brought their unique voice to the platform. Their posts reflected a personality that engages, provokes thought, and connects with others in meaningful ways.")),
     ("evolution", Json.obj
       [("early_year_vibe", Json.str "Started the year finding their footing on the platform."),
        ("mid_year_shift", Json.str "Evolved their voice and explored new topics."),
        ("late_year_energy", Json.str "Ended the year with a clearer sense of their X identity."),
        ("transformation_summary", Json.str "A year of growth and authentic expression.")]),
     ("surprising_facts", Json.arr []),
     ("hot_take_of_year", Json.str "Their boldest opinions kept followers engaged throughout the year."),
     ("roast", Json.str ("@" ++ username ++ " never met a post button they didn\x27t want to click.")),
     ("if_they_were", Json.str ("If @" ++ username ++ " was a coffee order, they\x27d be whatever\x27s most interesting on the menu.")),
     ("power_move", Json.str "Showing up authentically, one post at a time."),
     ("one_liner", Json.str ("@" ++ username ++ ": Proof that everyone has a story worth sharing."))]

/-- The declared top-level fields of the WrappedResponse pydantic schema
(src/api/index.py lines 98-115), in declaration order. -/
def wrappedResponseFields : List String :=
  ["personality", "vibe", "themes", "voice", "content_mix", "highlights",
   "greatest_hits", "year_story", "evolution", "surprising_facts",
   "hot_take_of_year", "roast", "if_they_were", "power_move", "one_liner"]

/-- Every declared schema field is present in the report object with a
non-null value. -/
def allFieldsPopulated (j : Json) : Bool :=
  wrappedResponseFields.all (fun f =>
    match j.getKey? f with
    | some v => !v.isNull
    | none => false)

/-- Fixed middle text of the format prompt (src/api/index.py lines 345-406),
between the raw-analysis block and the interpolated IF THEY WERE line. -/
def format_prompt_middle : String :=
  "Create a COMPLETE, ENGAGING Wrapped. This should feel like Spotify Wrapped - surprising, personal, shareable.\n" ++
  "\n" ++
  "=== REQUIRED FIELDS ===\n" ++
  "\n" ++
  "PERSONALITY:\n" ++
  "- archetype: Best fit from: \"The Thread Weaver\", \"The Hot Take Artist\", \"The Meme Lord\", \"The Knowledge Dropper\", \"The Reply Guy/Gal\", \"The Vibe Curator\", \"The Industry Oracle\", \"The Chaos Agent\", \"The Philosopher\", \"The Hype Beast\"\n" ++
  "- description: 2-3 sentences WHY this fits (with examples)\n" ++
  "- traits: 3-5 personality traits\n" ++
  "- spirit_emoji: One emoji that IS them\n" ++
  "\n" ++
  "VIBE:\n" ++
  "- Percentages adding to 100 (positive/neutral/negative)\n" ++
  "- overall_vibe: Catchy label (e.g., \"Chaotic Good\", \"Unhinged Genius\", \"Wholesome Chaos\")\n" ++
  "- vibe_description: 2-3 sentences about their energy\n" ++
  "\n" ++
  "THEMES (5-7):\n" ++
  "- theme: Topic name (1-3 words)\n" ++
  "- weight: 1-100 (relative prominence)\n" ++
  "- sample_context: How they discuss it (quote if possible)\n" ++
  "\n" ++
  "VOICE:\n" ++
  "- style_summary: Their unique writing voice\n" ++
  "- vocabulary_level, tone, emoji_style, post_length_style\n" ++
  "- signature_phrases: 2-4 phrases/words they overuse\n" ++
  "\n" ++
  "CONTENT MIX:\n" ++
  "- categories: 4-6 types with percentages\n" ++
  "- primary_mode: Main content style\n" ++
  "- engagement_style: How they interact\n" ++
  "\n" ++
  "HIGHLIGHTS (3-5):\n" ++
  "- title: Catchy moment title\n" ++
  "- description: What made it notable\n" ++
  "- post_snippet: Quote from that period\n" ++
  "- time_period: When it happened\n" ++
  "\n" ++
  "GREATEST HITS (3-5):\n" ++
  "- content: The actual post text (full quote)\n" ++
  "- category: Why it\x27s a hit\n" ++
  "- context: Brief explanation\n" ++
  "\n" ++
  "=== NEW INSIGHT FIELDS (CRITICAL) ===\n" ++
  "\n" ++
  "EVOLUTION (required - this is what makes it feel like a \"year in review\"):\n" ++
  "- early_year_vibe: Their Q1 (Jan-Mar) energy/focus\n" ++
  "- mid_year_shift: How Q2-Q3 was different\n" ++
  "- late_year_energy: Their Q4 vibe\n" ++
  "- transformation_summary: One sentence arc (e.g., \"From lurker to thought leader\")\n" ++
  "\n" ++
  "SURPRISING FACTS (3-5 required):\n" ++
  "Things that are UNEXPECTED or would make someone go \"wait, really?\"\n" ++
  "- insight: The surprising observation\n" ++
  "- evidence: Example from their posts\n" ++
  "\n" ++
  "HOT TAKE OF YEAR (required):\n" ++
  "Their single spiciest, most controversial, or boldest opinion. Quote the actual post if possible.\n" ++
  "\n" ++
  "ROAST (required):\n" ++
  "A playful, witty roast of their X presence. Should be funny but not mean. Like what their friends would joke about.\n" ++
  "Example: \"You\x27ve never met a hot take you didn\x27t want to adopt. Your \x27quick thought\x27 threads have more parts than a Netflix series.\"\n" ++
  "\n" ++
  "IF THEY WERE (required):\n"

/-- Fixed tail text of the format prompt (src/api/index.py lines 408-433). -/
def format_prompt_tail : String :=
  "Be creative! Examples:\n" ++
  "- \"If @user was a font, they\x27d be Comic Sans - controversial, but memorable\"\n" ++
  "- \"If @user was a drink, they\x27d be cold brew with 4 espresso shots - intense, keeps you up at night\"\n" ++
  "\n" ++
  "POWER MOVE (required):\n" ++
  "Their signature move on X. What do they do better than anyone?\n" ++
  "Example: \"Turning industry drama into must-read threads\" or \"Making people actually click the \x27read more\x27\"\n" ++
  "\n" ++
  "ONE LINER (required):\n" ++
  "A single shareable sentence that captures their ENTIRE X presence. This should be quotable.\n" ++
  "Example: \"The only person who can make a 47-tweet thread feel too short.\"\n" ++
  "\n" ++
  "YEAR STORY (required):\n" ++
  "3-5 sentence narrative of their year. Personal, specific, shareable. Reference their actual content.\n" ++
  "BAD: \"They had a good year posting about things.\"\n" ++
  "GOOD: \"2024 was the year @user stopped lurking and started causing chaos. From their viral January thread about [topic] to their October hot take that broke the timeline, they went from observer to main character. Their takes got hotter, their threads got longer, and their followers couldn\x27t look away.\"\n" ++
  "\n" ++
  "=== QUALITY CHECK ===\n" ++
  "Before finalizing, verify:\n" ++
  "- Every field references SPECIFIC content from the analysis\n" ++
  "- The roast is actually funny\n" ++
  "- The one_liner is quotable\n" ++
  "- surprising_facts are genuinely surprising\n" ++
  "- Evolution shows actual CHANGE, not just \"they posted\"\n" ++
  "\n" ++
  "NO GENERIC FILLER. Make every field COUNT."

/-- format_prompt of src/api/index.py (lines 339-433): the phase-2 prompt
embeds the phase-1 raw analysis verbatim between fixed template text. -/
def format_prompt (username : String) (currentYear : Nat) (rawAnalysis : String) : String :=
  "Based on the following content analysis of @" ++ username ++
  "\x27s X activity for " ++ toString currentYear ++
  ", create their Year Wrapped.\n\n=== RAW ANALYSIS ===\n" ++ rawAnalysis ++
  "\n=== END ANALYSIS ===\n\n" ++ format_prompt_middle ++
  "Complete this: \"If @" ++ username ++ " was a [thing], they\x27d be...\"\n" ++
  format_prompt_tail

/-- The ASCII whitespace characters stripped by Python str.strip(). -/
def isPyWs (c : Char) : Bool :=
  c == ' ' || c == '\t' || c == '\n' || c == '\r' || c == Char.ofNat 11 || c == Char.ofNat 12

/-- Python str.strip() on the ASCII alphabet: drop leading and trailing
whitespace. -/
def pyStrip (s : String) : String :=
  String.mk (((s.toList.dropWhile isPyWs).reverse.dropWhile isPyWs).reverse)

/-- Python str.lower() (character-wise). -/
def lowerStr (s : String) : String := String.mk (s.toList.map Char.toLower)

/-- Does the second list start with the first one? -/
def leadsWith (pat l : List Char) : Bool :=
  Nat.ble pat.length l.length && (List.zip pat l).all (fun pc => pc.1 == pc.2)

/-- Substring containment (Python: pat in s), on character lists. -/
def containsSub (pat : List Char) : List Char → Bool
  | [] => leadsWith pat []
  | c :: cs => leadsWith pat (c :: cs) || containsSub pat cs

/-- Fixed messages of the orchestrator's own progress/error events
(src/api/index.py lines 184, 191, 327, 334, 493, 496). -/
def xaiKeyErrorMessage : String := "XAI_API_KEY environment variable is not set"

def noAnalysisDataMessage : String := "No analysis data was generated. Please try again."

def firingUpMessage (username : String) : String :=
  "🚀 Firing up Grok for @" ++ username ++ "..."

def generatingMessage : String := "✨ Generating your wrapped..."

def finalTouchesMessage : String := "🔥 Adding final touches..."

def doneMessage : String := "🎉 Done!"

/-- Behaviour of the remote calls within one request, as observed by the
orchestrator: an exception before the first progress yield (failEarly: e.g.
client construction), an exception while streaming after delivering some
chunks (raises), an exception between the end of a non-empty stream and the
structured-output call, i.e. after the generating progress event
(raisesFormatting), or a completed stream (ok).  Exceptions carry str(e) and
become the single error event of the outer handler. -/
inductive StreamOutcome where
  | failEarly (message : String) : StreamOutcome
  | raises (chunks : List Chunk) (message : String) : StreamOutcome
  | raisesFormatting (chunks : List Chunk) (message : String) : StreamOutcome
  | ok (chunks : List Chunk) : StreamOutcome

/-- generate_wrapped_streaming of src/api/index.py (lines 175-508) as the list
of events it emits for one request, given the environment (is XAI_API_KEY
set), the remote stream behaviour, and the structured-parse oracle (parse:
prompt to model_dump object on success, none when format_chat.parse raises —
that exception is swallowed by the inner handler and replaced by the fallback
dictionary, lines 438-488).  The outer try converts any exception into a
single error event (lines 503-508); GeneratorExit and mid-stream client
disconnects (which truncate the sequence) are not modelled. -/
def generate_wrapped_streaming (username : String) (currentYear : Nat)
    (keyPresent : Bool) (stream : StreamOutcome)
    (parse : String → Option Json) : List Event :=
  if !keyPresent then [Event.error xaiKeyErrorMessage]
  else
    match stream with
    | .failEarly e => [Event.error e]
    | .raises cs e =>
        Event.progress (firingUpMessage username) 1 4 ::
          (streamEventsAux emptyCounts cs ++ [Event.error e])
    | .raisesFormatting cs e =>
        if pyStrip (raw_analysis cs) == "" then
          Event.progress (firingUpMessage username) 1 4 ::
            (streamEventsAux emptyCounts cs ++ [Event.error noAnalysisDataMessage])
        else
          Event.progress (firingUpMessage username) 1 4 ::
            (streamEventsAux emptyCounts cs ++
              [Event.progress generatingMessage 2 4, Event.error e])
    | .ok cs =>
        if pyStrip (raw_analysis cs) == "" then
          Event.progress (firingUpMessage username) 1 4 ::
            (streamEventsAux emptyCounts cs ++ [Event.error noAnalysisDataMessage])
        else
          let wrappedData :=
            match parse (format_prompt username currentYear (raw_analysis cs)) with
            | some j => j
            | none => fallback_wrapped_data username currentYear
          Event.progress (firingUpMessage username) 1 4 ::
            (streamEventsAux emptyCounts cs ++
              [Event.progress generatingMessage 2 4,
               Event.progress finalTouchesMessage 3 4,
               Event.progress doneMessage 4 4,
               Event.complete wrappedData])

/-- The analysis_chunk events of the legacy variant's analysis loop
(src/api/wrapped/stream.py lines 140-145): one event per non-empty delta. -/
def v1AnalysisChunkEvents (deltas : List String) : List Event :=
  (deltas.filter (fun s => !(s == ""))).map Event.analysisChunk

/-- full_analysis_text of src/api/wrapped/stream.py line 150: the joined
streamed deltas PLUS the content of the final chat.sample() response (which is
never emitted as an analysis_chunk event). -/
def v1FullAnalysisText (deltas : List String) (finalContent : String) : String :=
  String.join (deltas.filter (fun s => !(s == ""))) ++ finalContent

/-- The text deltas carried by the analysis_chunk events of an event list, in
emission order. -/
def chunkContents (evs : List Event) : List String :=
  evs.filterMap (fun e =>
    match e with
    | Event.analysisChunk c => some c
    | _ => none)

/-- Concatenation of all analysis_chunk contents of an event list, in
emission order. -/
def concatChunks (evs : List Event) : String := String.join (chunkContents evs)

/-- Modelled from the claim wording (spec section 3 invariant): the event
sequence matches progress* analysis_chunk* progress* complete or
progress* analysis_chunk* error. -/
def specEventShape (evs : List Event) : Bool :=
  let l1 := evs.dropWhile Event.isProgress
  let l2 := l1.dropWhile Event.isAnalysisChunk
  let l3 := l2.dropWhile Event.isProgress
  (match l3 with
   | [Event.complete _] => true
   | _ => false) ||
  (match l2 with
   | [Event.error _] => true
   | _ => false)

/-- The amended event-sequence shape: all events before the single terminal
event are progress or analysis_chunk events (tool-notice progress events may
interleave freely with analysis chunks), the terminal event is a complete
immediately preceded by a progress event, or an error; nothing follows the
terminal event. -/
def amendedEventShape (evs : List Event) : Bool :=
  match evs.getLast? with
  | some (Event.error _) => evs.dropLast.all (fun x => !x.isTerminal)
  | some (Event.complete _) =>
      evs.dropLast.all (fun x => !x.isTerminal) &&
      (match evs.dropLast.getLast? with
       | some (Event.progress _ _ _) => true
       | _ => false)
  | _ => false

lemma processToolCalls_all_progress (ns : List String) :
    ∀ counts : String → Nat, ((processToolCalls counts ns).1).all Event.isProgress = true := by
  induction ns with
  | nil => intro counts; simp [processToolCalls]
  | cons n ns ih =>
    intro counts
    simp [processToolCalls, Event.isProgress, ih]

lemma all_progress_nonterminal (l : List Event) (h : l.all Event.isProgress = true) :
    l.all (fun x => !x.isTerminal) = true := by
  rw [List.all_eq_true] at h ⊢
  intro a ha
  have := h a ha
  cases a <;> simp_all [Event.isProgress, Event.isTerminal, Event.isComplete, Event.isError]

lemma streamEventsAux_nonterminal (cs : List Chunk) :
    ∀ counts : String → Nat, (streamEventsAux counts cs).all (fun x => !x.isTerminal) = true := by
  induction cs with
  | nil => intro counts; rfl
  | cons c cs ih =>
    intro counts
    simp only [streamEventsAux, List.all_append]
    rw [ih, all_progress_nonterminal _ (processToolCalls_all_progress _ _)]
    by_cases hc : (c.content == "") = true
    · simp [hc]
    · simp [hc, Event.isTerminal, Event.isComplete, Event.isError]

lemma chunkContents_append (l1 l2 : List Event) :
    chunkContents (l1 ++ l2) = chunkContents l1 ++ chunkContents l2 := by
  simp [chunkContents]

lemma chunkContents_processToolCalls (ns : List String) :
    ∀ counts : String → Nat, chunkContents ((processToolCalls counts ns).1) = [] := by
  induction ns with
  | nil => intro counts; rfl
  | cons n ns ih =>
    intro counts
    simp only [processToolCalls, chunkContents, List.filterMap_cons]
    exact ih _

lemma chunkContents_streamEventsAux (cs : List Chunk) :
    ∀ counts : String → Nat,
      chunkContents (streamEventsAux counts cs)
        = (cs.map Chunk.content).filter (fun s => !(s == "")) := by
  induction cs with
  | nil => intro counts; rfl
  | cons c cs ih =>
    intro counts
    simp only [streamEventsAux]
    rw [chunkContents_append, chunkContents_append, chunkContents_processToolCalls, ih,
      List.map_cons, List.filter_cons]
    by_cases hc : (c.content == "") = true
    · simp [hc, chunkContents]
    · simp [hc, chunkContents]

lemma terminal_split (u : String) (y : Nat) (kp : Bool) (stream : StreamOutcome)
    (parse : String → Option Json) :
    (∃ pre e, generate_wrapped_streaming u y kp stream parse = pre ++ [Event.error e]
        ∧ pre.all (fun x => !x.isTerminal) = true)
    ∨ (∃ pre m d, generate_wrapped_streaming u y kp stream parse
          = pre ++ [Event.progress m 4 4, Event.complete d]
        ∧ pre.all (fun x => !x.isTerminal) = true) := by
  cases kp with
  | false => exact Or.inl ⟨[], xaiKeyErrorMessage, rfl, rfl⟩
  | true =>
    cases stream with
    | failEarly e => exact Or.inl ⟨[], e, rfl, rfl⟩
    | raises cs e =>
      refine Or.inl ⟨Event.progress (firingUpMessage u) 1 4 :: streamEventsAux emptyCounts cs, e, ?_, ?_⟩
      · simp [generate_wrapped_streaming]
      · rw [List.all_cons, streamEventsAux_nonterminal]; rfl
    | raisesFormatting cs e =>
      by_cases hr : (pyStrip (raw_analysis cs) == "") = true
      · refine Or.inl ⟨Event.progress (firingUpMessage u) 1 4 :: streamEventsAux emptyCounts cs,
          noAnalysisDataMessage, ?_, ?_⟩
        · simp [generate_wrapped_streaming, hr]
        · rw [List.all_cons, streamEventsAux_nonterminal]; rfl
      · refine Or.inl ⟨Event.progress (firingUpMessage u) 1 4 ::
          (streamEventsAux emptyCounts cs ++ [Event.progress generatingMessage 2 4]), e, ?_, ?_⟩
        · simp only [Bool.not_eq_true] at hr
          simp [generate_wrapped_streaming, hr]
        · rw [List.all_cons, List.all_append, streamEventsAux_nonterminal]; rfl
    | ok cs =>
      by_cases hr : (pyStrip (raw_analysis cs) == "") = true
      · refine Or.inl ⟨Event.progress (firingUpMessage u) 1 4 :: streamEventsAux emptyCounts cs,
          noAnalysisDataMessage, ?_, ?_⟩
        · simp [generate_wrapped_streaming, hr]
        · rw [List.all_cons, streamEventsAux_nonterminal]; rfl
      · refine Or.inr ⟨Event.progress (firingUpMessage u) 1 4 ::
          (streamEventsAux emptyCounts cs ++
            [Event.progress generatingMessage 2 4, Event.progress finalTouchesMessage 3 4]),
          doneMessage,
          (match parse (format_prompt u y (raw_analysis cs)) with
           | some j => j
           | none => fallback_wrapped_data u y), ?_, ?_⟩
        · simp only [Bool.not_eq_true] at hr
          simp [generate_wrapped_streaming, hr]
        · rw [List.all_cons, List.all_append, streamEventsAux_nonterminal]; rfl

lemma countP_of_nonterminal (pre : List Event)
    (hall : pre.all (fun x => !x.isTerminal) = true) :
    pre.countP Event.isComplete = 0 ∧ pre.countP Event.isError = 0 := by
  rw [List.all_eq_true] at hall
  constructor <;> rw [List.countP_eq_zero] <;> intro a ha <;> have h := hall a ha <;>
    cases a <;> simp_all [Event.isTerminal, Event.isComplete, Event.isError]

/-- C1: for every request reaching the orchestrator — whatever the remote
stream does (fails before the first event, raises mid-stream, or completes
with any chunk sequence) and whatever the structured-parse outcome is — the
emitted event stream contains exactly one terminal event: the number of
complete events plus the number of error events is exactly one (client
disconnects, which truncate the stream, are outside the model as the claim
excepts them). -/
theorem C1_exactly_one_terminal_event (u : String) (y : Nat) (kp : Bool)
    (stream : StreamOutcome) (parse : String → Option Json) :
    (generate_wrapped_streaming u y kp stream parse).countP Event.isComplete
      + (generate_wrapped_streaming u y kp stream parse).countP Event.isError = 1 := by
  rcases terminal_split u y kp stream parse with ⟨pre, e, heq, hall⟩ | ⟨pre, m, d, heq, hall⟩ <;>
    rw [heq] <;>
    rcases countP_of_nonterminal pre hall with ⟨h1, h2⟩ <;>
    simp [List.countP_append, List.countP_cons, h1, h2, Event.isComplete, Event.isError]

/-- C2 counterexample: a run whose remote stream delivers a text delta, then
a tool invocation, then another text delta (permitted by the forwarding loop
of src/api/index.py lines 312-321, which emits tool-notice progress and
analysis_chunk events in arrival order).  The first conjunct computes the
exact emitted trace — the web_search progress event lands between the two
analysis_chunk events — and the second states that this trace fails the
claimed shape progress* analysis_chunk* progress* complete (or
progress* analysis_chunk* error). -/
theorem C2_counterexample :
    generate_wrapped_streaming "alice" 2025 true
        (.ok [⟨[], "a"⟩, ⟨["web_search"], ""⟩, ⟨[], "b"⟩]) (fun _ => none)
      = [Event.progress (firingUpMessage "alice") 1 4,
         Event.analysisChunk "a",
         Event.progress "🌐 Searching the web..." 1 4,
         Event.analysisChunk "b",
         Event.progress generatingMessage 2 4,
         Event.progress finalTouchesMessage 3 4,
         Event.progress doneMessage 4 4,
         Event.complete (fallback_wrapped_data "alice" 2025)]
    ∧ specEventShape (generate_wrapped_streaming "alice" 2025 true
        (.ok [⟨[], "a"⟩, ⟨["web_search"], ""⟩, ⟨[], "b"⟩]) (fun _ => none)) = false := by
  exact ⟨rfl, rfl⟩

/-- C2 (amended): for every request, every event before the single terminal
event is a progress or analysis_chunk event — tool-notice progress events may
interleave freely with analysis chunks — and the terminal event is either an
error or a complete immediately preceded by a progress event; no event of any
kind follows the terminal event. -/
theorem C2_amended_event_shape (u : String) (y : Nat) (kp : Bool)
    (stream : StreamOutcome) (parse : String → Option Json) :
    amendedEventShape (generate_wrapped_streaming u y kp stream parse) = true := by
  rcases terminal_split u y kp stream parse with ⟨pre, e, heq, hall⟩ | ⟨pre, m, d, heq, hall⟩
  · rw [heq]
    unfold amendedEventShape
    rw [List.getLast?_concat, List.dropLast_concat]
    exact hall
  · rw [heq, show pre ++ [Event.progress m 4 4, Event.complete d]
        = (pre ++ [Event.progress m 4 4]) ++ [Event.complete d] by simp]
    unfold amendedEventShape
    rw [List.getLast?_concat, List.dropLast_concat, List.getLast?_concat]
    simp only [List.all_append, hall]
    rfl

lemma generate_ok_empty (u : String) (y : Nat) (cs : List Chunk)
    (parse : String → Option Json) (hr : (pyStrip (raw_analysis cs) == "") = true) :
    generate_wrapped_streaming u y true (.ok cs) parse
      = Event.progress (firingUpMessage u) 1 4 ::
          (streamEventsAux emptyCounts cs ++ [Event.error noAnalysisDataMessage]) := by
  simp [generate_wrapped_streaming, hr]

lemma generate_ok_nonempty (u : String) (y : Nat) (cs : List Chunk)
    (parse : String → Option Json) (hr : (pyStrip (raw_analysis cs) == "") = false) :
    generate_wrapped_streaming u y true (.ok cs) parse
      = Event.progress (firingUpMessage u) 1 4 ::
          (streamEventsAux emptyCounts cs ++
            [Event.progress generatingMessage 2 4,
             Event.progress finalTouchesMessage 3 4,
             Event.progress doneMessage 4 4,
             Event.complete
               (match parse (format_prompt u y (raw_analysis cs)) with
                | some j => j
                | none => fallback_wrapped_data u y)]) := by
  simp [generate_wrapped_streaming, hr]

lemma chunkContents_cons_progress (m : String) (s t : Nat) (l : List Event) :
    chunkContents (Event.progress m s t :: l) = chunkContents l := rfl

lemma chunkContents_map_analysisChunk (l : List String) :
    chunkContents (l.map Event.analysisChunk) = l := by
  induction l with
  | nil => rfl
  | cons c cs ih => simp only [List.map_cons, chunkContents, List.filterMap_cons] at ih ⊢; rw [ih]

lemma all_nonterminal_noError (l : List Event)
    (h : l.all (fun x => !x.isTerminal) = true) : l.all (fun e => !e.isError) = true := by
  rw [List.all_eq_true] at h ⊢
  intro a ha
  have := h a ha
  cases a <;> simp_all [Event.isTerminal, Event.isError, Event.isComplete]

lemma all_nonterminal_noComplete (l : List Event)
    (h : l.all (fun x => !x.isTerminal) = true) : l.all (fun e => !e.isComplete) = true := by
  rw [List.all_eq_true] at h ⊢
  intro a ha
  have := h a ha
  cases a <;> simp_all [Event.isTerminal, Event.isError, Event.isComplete]

/-- C3 counterexample: in the legacy variant (src/api/wrapped/stream.py), the
text used downstream appends the final chat.sample() content to the streamed
deltas; with one streamed delta "a" and final content "b" the concatenation of
the emitted analysis_chunk events is "a" while the recovery input is "ab", so
the claimed equality fails. -/
theorem C3_counterexample :
    concatChunks (v1AnalysisChunkEvents ["a"]) ≠ v1FullAnalysisText ["a"] "b"
    ∧ concatChunks (v1AnalysisChunkEvents ["a"]) = "a"
    ∧ v1FullAnalysisText ["a"] "b" = "ab" := by
  refine ⟨by decide, rfl, rfl⟩

/-- C3 (amended): in the current orchestrator (src/api/index.py) the
concatenation of the emitted analysis_chunk contents equals raw_analysis, the
exact text embedded in the phase-2 prompt, and the phase-2 parse is consulted
only at that prompt; in the legacy variant (src/api/wrapped/stream.py) the
text used by recovery is that concatenation with the final aggregate response
content appended — the concatenation is a prefix of it, equal exactly when the
final aggregate content is empty. -/
theorem C3_amended_chunk_concatenation :
    (∀ (u : String) (y : Nat) (cs : List Chunk) (parse : String → Option Json),
        concatChunks (generate_wrapped_streaming u y true (.ok cs) parse) = raw_analysis cs)
    ∧ (∀ (u : String) (y : Nat) (cs : List Chunk) (p1 p2 : String → Option Json),
        p1 (format_prompt u y (raw_analysis cs)) = p2 (format_prompt u y (raw_analysis cs)) →
        generate_wrapped_streaming u y true (.ok cs) p1
          = generate_wrapped_streaming u y true (.ok cs) p2)
    ∧ (∀ (deltas : List String) (finalContent : String),
        concatChunks (v1AnalysisChunkEvents deltas) ++ finalContent
          = v1FullAnalysisText deltas finalContent) := by
  refine ⟨?_, ?_, ?_⟩
  · intro u y cs parse
    have hc : chunkContents (generate_wrapped_streaming u y true (.ok cs) parse)
        = (cs.map Chunk.content).filter (fun s => !(s == "")) := by
      by_cases hr : (pyStrip (raw_analysis cs) == "") = true
      · rw [generate_ok_empty u y cs parse hr, chunkContents_cons_progress,
          chunkContents_append, chunkContents_streamEventsAux]
        simp [chunkContents]
      · rw [Bool.not_eq_true] at hr
        rw [generate_ok_nonempty u y cs parse hr, chunkContents_cons_progress,
          chunkContents_append, chunkContents_streamEventsAux]
        simp [chunkContents]
    unfold concatChunks raw_analysis
    rw [hc]
  · intro u y cs p1 p2 h
    by_cases hr : (pyStrip (raw_analysis cs) == "") = true
    · rw [generate_ok_empty u y cs p1 hr, generate_ok_empty u y cs p2 hr]
    · rw [Bool.not_eq_true] at hr
      rw [generate_ok_nonempty u y cs p1 hr, generate_ok_nonempty u y cs p2 hr, h]
  · intro deltas finalContent
    unfold concatChunks v1AnalysisChunkEvents v1FullAnalysisText
    rw [chunkContents_map_analysisChunk]

/-- C3 witness: concrete instances of the amended statement. -/
theorem C3_witness :
    concatChunks (generate_wrapped_streaming "alice" 2025 true (.ok [⟨[], "a"⟩]) (fun _ => none))
      = raw_analysis [⟨[], "a"⟩]
    ∧ generate_wrapped_streaming "alice" 2025 true (.ok [⟨[], "a"⟩]) (fun _ => none)
        = generate_wrapped_streaming "alice" 2025 true (.ok [⟨[], "a"⟩])
            (fun p => if p == "" then some (Json.obj []) else none)
    ∧ concatChunks (v1AnalysisChunkEvents ["a"]) ++ "b" = v1FullAnalysisText ["a"] "b" := by
  refine ⟨C3_amended_chunk_concatenation.1 "alice" 2025 _ _,
    C3_amended_chunk_concatenation.2.1 "alice" 2025 _ _ _ ?_,
    C3_amended_chunk_concatenation.2.2 ["a"] "b"⟩
  show (none : Option Json)
    = if (format_prompt "alice" 2025 (raw_analysis [⟨[], "a"⟩]) == "") = true
      then some (Json.obj []) else none
  rw [show (format_prompt "alice" 2025 (raw_analysis [⟨[], "a"⟩]) == "") = false from rfl]
  simp

/-- C5: whenever structured parsing fails (the parse oracle returns none at
the phase-2 prompt) on a run whose phase-1 output is non-empty, no error
event is emitted: the run completes with the hand-built fallback dictionary,
in which every declared WrappedResponse field is present and non-null. -/
theorem C5_parse_failure_absorbed (u : String) (y : Nat) (cs : List Chunk)
    (parse : String → Option Json)
    (hraw : (pyStrip (raw_analysis cs) == "") = false)
    (hfail : parse (format_prompt u y (raw_analysis cs)) = none) :
    generate_wrapped_streaming u y true (.ok cs) parse
      = Event.progress (firingUpMessage u) 1 4 ::
          (streamEventsAux emptyCounts cs ++
            [Event.progress generatingMessage 2 4,
             Event.progress finalTouchesMessage 3 4,
             Event.progress doneMessage 4 4,
             Event.complete (fallback_wrapped_data u y)])
    ∧ (generate_wrapped_streaming u y true (.ok cs) parse).all (fun e => !e.isError) = true
    ∧ allFieldsPopulated (fallback_wrapped_data u y) = true := by
  have h1 := generate_ok_nonempty u y cs parse hraw
  rw [hfail] at h1
  refine ⟨h1, ?_, ?_⟩
  · rw [h1, List.all_cons, List.all_append,
      all_nonterminal_noError _ (streamEventsAux_nonterminal cs emptyCounts)]
    rfl
  · rfl

/-- C5 witness: a concrete run with failing structured parse. -/
theorem C5_witness :
    ((pyStrip (raw_analysis [⟨[], "hello"⟩]) == "") = false)
    ∧ (generate_wrapped_streaming "alice" 2025 true (.ok [⟨[], "hello"⟩]) (fun _ => none)).all
        (fun e => !e.isError) = true
    ∧ allFieldsPopulated (fallback_wrapped_data "alice" 2025) = true := by
  have h := C5_parse_failure_absorbed "alice" 2025 [⟨[], "hello"⟩] (fun _ => none) (by decide) rfl
  exact ⟨by decide, h.2.1, h.2.2⟩

/-- C6: when phase 1 produces no text at all, the run emits the dedicated
empty-output error (whose lowercased message contains the claimed phrase), no
complete event occurs, and recovery/phase-2 is never attempted: the emitted
events do not depend on the parse oracle at all. -/
theorem C6_empty_output_error (u : String) (y : Nat) (cs : List Chunk)
    (parse : String → Option Json) (h : raw_analysis cs = "") :
    generate_wrapped_streaming u y true (.ok cs) parse
      = Event.progress (firingUpMessage u) 1 4 ::
          (streamEventsAux emptyCounts cs ++ [Event.error noAnalysisDataMessage])
    ∧ containsSub "no analysis data was generated".toList (lowerStr noAnalysisDataMessage).toList = true
    ∧ (generate_wrapped_streaming u y true (.ok cs) parse).all (fun e => !e.isComplete) = true
    ∧ generate_wrapped_streaming u y true (.ok cs) parse
        = generate_wrapped_streaming u y true (.ok cs) (fun _ => none) := by
  have hr : (pyStrip (raw_analysis cs) == "") = true := by rw [h]; rfl
  have h1 := generate_ok_empty u y cs parse hr
  refine ⟨h1, by decide, ?_, ?_⟩
  · rw [h1, List.all_cons, List.all_append,
      all_nonterminal_noComplete _ (streamEventsAux_nonterminal cs emptyCounts)]
    rfl
  · rw [h1, generate_ok_empty u y cs _ hr]

/-- C6 witness: a run whose only chunk carries a tool call and an empty text
delta, so phase 1 produces no text. -/
theorem C6_witness :
    raw_analysis [⟨["x_keyword_search"], ""⟩] = ""
    ∧ generate_wrapped_streaming "alice" 2025 true (.ok [⟨["x_keyword_search"], ""⟩]) (fun _ => none)
        = Event.progress (firingUpMessage "alice") 1 4 ::
            (streamEventsAux emptyCounts [⟨["x_keyword_search"], ""⟩]
              ++ [Event.error noAnalysisDataMessage])
    ∧ containsSub "no analysis data was generated".toList
        (lowerStr noAnalysisDataMessage).toList = true := by
  have h := C6_empty_output_error "alice" 2025 [⟨["x_keyword_search"], ""⟩] (fun _ => none) rfl
  exact ⟨rfl, h.1, h.2.1⟩

/-- C7: with the API credential absent, the run emits exactly the single
configuration error event — whose message contains XAI_API_KEY — regardless of
the remote behaviour (so the check precedes any remote call), and no
analysis_chunk or complete event is ever emitted. -/
theorem C7_missing_credential (u : String) (y : Nat) (stream : StreamOutcome)
    (parse : String → Option Json) :
    generate_wrapped_streaming u y false stream parse = [Event.error xaiKeyErrorMessage]
    ∧ containsSub "XAI_API_KEY".toList xaiKeyErrorMessage.toList = true
    ∧ (generate_wrapped_streaming u y false stream parse).all
        (fun e => !(e.isComplete || e.isAnalysisChunk)) = true := by
  exact ⟨rfl, by decide, rfl⟩

lemma toolMessages_ne_nil (t : String) (msgs : List String)
    (h : TOOL_MESSAGES t = some msgs) : msgs ≠ [] := by
  intro hnil
  subst hnil
  unfold TOOL_MESSAGES at h
  split_ifs at h <;> simp at h

lemma get_tool_message_fst_tabled (counts : String → Nat) (t : String) (msgs : List String)
    (h : TOOL_MESSAGES t = some msgs) :
    (get_tool_message counts t).1 = msgs.getD (counts t % msgs.length) "" := by
  simp [get_tool_message, h]

lemma get_tool_message_snd_self (counts : String → Nat) (n : String) :
    (get_tool_message counts n).2 n = counts n + 1 := by
  simp [get_tool_message]

lemma get_tool_message_snd_other (counts : String → Nat) (n t : String) (hn : t ≠ n) :
    (get_tool_message counts n).2 t = counts t := by
  simp [get_tool_message, hn]

lemma runToolCalls_head (counts : String → Nat) (n : String) (ns : List String) :
    (runToolCalls counts (n :: ns)).1
      = (n, (get_tool_message counts n).1) :: (runToolCalls ((get_tool_message counts n).2) ns).1 :=
  rfl

lemma runToolCalls_filtered (t : String) (msgs : List String)
    (h : TOOL_MESSAGES t = some msgs) (calls : List String) :
    ∀ counts : String → Nat,
      (((runToolCalls counts calls).1).filter (fun p => p.1 == t)).map Prod.snd
        = (List.range (calls.count t)).map
            (fun j => msgs.getD ((counts t + j) % msgs.length) "") := by
  induction calls with
  | nil => intro counts; simp [runToolCalls]
  | cons n ns ih =>
    intro counts
    rw [runToolCalls_head]
    by_cases hn : n = t
    · subst hn
      rw [List.filter_cons_of_pos (by simp), List.map_cons, List.count_cons_self,
        List.range_succ_eq_map, List.map_cons, List.map_map, ih, get_tool_message_snd_self]
      congr 1
      · rw [get_tool_message_fst_tabled counts n msgs h, Nat.add_zero]
      · refine List.map_congr_left ?_
        intro j _
        simp only [Function.comp_apply]
        rw [show counts n + j.succ = counts n + 1 + j by omega]
    · rw [List.filter_cons_of_neg (by simp [hn]), ih,
        get_tool_message_snd_other counts n t (Ne.symm hn),
        List.count_cons_of_ne (Ne.symm hn)]

lemma invocationMessages_eq (t : String) (msgs : List String)
    (h : TOOL_MESSAGES t = some msgs) (calls : List String) :
    invocationMessages t calls
      = (List.range (calls.count t)).map (fun j => msgs.getD (j % msgs.length) "") := by
  unfold invocationMessages
  rw [runToolCalls_filtered t msgs h calls emptyCounts]
  simp [emptyCounts]

/-- C8: the k-th invocation (0-indexed) of a tool with an N-message table,
within one request and regardless of interleaved invocations of other tools,
yields table[k mod N]; a tool identifier missing from the table yields the
generic templated message (separators replaced by spaces, title-cased), and
for "foo_bar" that message contains "Foo Bar". -/
theorem C8_tool_message_rotation :
    (∀ (calls : List String) (t : String) (msgs : List String) (k : Nat),
        TOOL_MESSAGES t = some msgs → k < calls.count t →
        (invocationMessages t calls).get? k = msgs.get? (k % msgs.length))
    ∧ (∀ (counts : String → Nat) (name : String), TOOL_MESSAGES name = none →
        (get_tool_message counts name).1 = genericToolMessage name)
    ∧ containsSub "Foo Bar".toList (genericToolMessage "foo_bar").toList = true := by
  refine ⟨?_, ?_, by decide⟩
  · intro calls t msgs k h hk
    rw [invocationMessages_eq t msgs h calls]
    have hN : 0 < msgs.length := List.length_pos.2 (toolMessages_ne_nil t msgs h)
    have hlt : k % msgs.length < msgs.length := Nat.mod_lt _ hN
    rw [List.get?_map, List.get?_range hk, List.get?_eq_get hlt]
    simp [List.getD_eq_get?, List.get?_eq_get hlt, List.getElem?_eq_getElem hlt]
  · intro counts name hnone
    simp [get_tool_message, hnone, Nat.mod_one]

/-- C8 witness: the fifth invocation of code_execution (a 4-message table)
wraps around to index 0. -/
theorem C8_witness :
    4 < (["code_execution", "code_execution", "code_execution",
          "code_execution", "code_execution"].count "code_execution")
    ∧ (invocationMessages "code_execution"
        ["code_execution", "code_execution", "code_execution",
         "code_execution", "code_execution"]).get? 4
      = (["🧮 Crunching the numbers...", "📊 Calculating your stats...",
          "💯 Running the math...", "📈 Analyzing your data..."]).get? (4 % 4) := by
  exact ⟨by decide,
    C8_tool_message_rotation.1 _ "code_execution" _ 4 rfl (by decide)⟩

/-- C9: tool-invocation counters are reset (tool_call_counts.clear()) at the
start of every request: the second of two sequential requests emits messages
independent of the first request's calls, and its first invocation of any
tabled tool yields that tool's message at table index 0. -/
theorem C9_counters_reset_per_request :
    (∀ calls1 calls1' calls2 : List String,
        secondRequestLog calls1 calls2 = secondRequestLog calls1' calls2)
    ∧ (∀ (calls1 calls2 : List String) (t : String) (msgs : List String),
        TOOL_MESSAGES t = some msgs → t ∈ calls2 →
        ((((secondRequestLog calls1 calls2).filter (fun p => p.1 == t)).map Prod.snd).head?)
          = msgs.get? 0) := by
  constructor
  · intro calls1 calls1' calls2
    rfl
  · intro calls1 calls2 t msgs h hmem
    show ((((runToolCalls emptyCounts calls2).1).filter (fun p => p.1 == t)).map Prod.snd).head?
      = msgs.get? 0
    rw [runToolCalls_filtered t msgs h calls2 emptyCounts]
    have hpos : 0 < calls2.count t := List.count_pos_iff.2 hmem
    obtain ⟨m, hm⟩ := Nat.exists_eq_succ_of_ne_zero (Nat.pos_iff_ne_zero.1 hpos)
    rw [hm, List.range_succ_eq_map]
    cases msgs with
    | nil => exact absurd rfl (toolMessages_ne_nil t [] h)
    | cons m0 ms => simp [emptyCounts]

/-- C9 witness: after a first request with two code_execution calls, the
second request's first code_execution call gets table index 0. -/
theorem C9_witness :
    "code_execution" ∈ ["code_execution"]
    ∧ ((((secondRequestLog ["code_execution", "code_execution"] ["code_execution"]).filter
          (fun p => p.1 == "code_execution")).map Prod.snd).head?)
        = (["🧮 Crunching the numbers...", "📊 Calculating your stats...",
            "💯 Running the math...", "📈 Analyzing your data..."]).get? 0 := by
  exact ⟨by decide,
    C9_counters_reset_per_request.2 ["code_execution", "code_execution"] ["code_execution"]
      "code_execution" _ rfl (by decide)⟩

lemma takeWhile_append_cons {α : Type} (p : α → Bool) (l1 : List α) (a : α) (l2 : List α)
    (h1 : l1.all p = true) (h2 : p a = false) :
    (l1 ++ a :: l2).takeWhile p = l1 := by
  induction l1 with
  | nil => simp [List.takeWhile_cons, h2]
  | cons x xs ih =>
    rw [List.all_cons, Bool.and_eq_true] at h1
    simp [List.takeWhile_cons, h1.1, ih h1.2]

lemma dropWhile_append_cons {α : Type} (p : α → Bool) (l1 : List α) (a : α) (l2 : List α)
    (h1 : l1.all p = true) (h2 : p a = false) :
    (l1 ++ a :: l2).dropWhile p = a :: l2 := by
  induction l1 with
  | nil => simp [List.dropWhile_cons, h2]
  | cons x xs ih =>
    rw [List.all_cons, Bool.and_eq_true] at h1
    simp [List.dropWhile_cons, h1.1, ih h1.2]

lemma setKeyList_append (kvs : List (String × Json)) (k : String) (v : Json)
    (h : ((kvs.map Prod.fst).contains k) = false) :
    setKeyList kvs k v = kvs ++ [(k, v)] := by
  induction kvs with
  | nil => rfl
  | cons p rest ih =>
    rw [List.map_cons, List.contains_cons, Bool.or_eq_false_iff] at h
    have hne : (p.1 == k) = false := by
      rcases h with ⟨h1, _⟩
      cases hb : p.1 == k
      · rfl
      · rw [beq_iff_eq] at hb
        rw [hb] at h1
        simp at h1
    simp [setKeyList, hne, ih h.2]

lemma extractSpanChars_decomposition (pre mid post : List Char)
    (hpre : pre.all (fun c => !(c == lbraceChar)) = true)
    (hpost : post.all (fun c => !(c == rbraceChar)) = true) :
    extractSpanChars (pre ++ lbraceChar :: (mid ++ rbraceChar :: post))
      = some (lbraceChar :: (mid ++ [rbraceChar])) := by
  unfold extractSpanChars
  rw [takeWhile_append_cons _ pre lbraceChar _ hpre (by simp), List.drop_left]
  have hrev : (lbraceChar :: (mid ++ rbraceChar :: post)).reverse
      = post.reverse ++ rbraceChar :: (mid.reverse ++ [lbraceChar]) := by
    simp
  simp only [hrev]
  rw [dropWhile_append_cons _ post.reverse rbraceChar _ (by simp [List.all_reverse, hpost]) (by simp)]
  simp

/-- C4 counterexample: on the spec's own fenced-JSON example, recovery does
not return just the parsed object with the citation list merged in — the
collected monthly summaries are merged in as well (key monthly_summaries), so
the result differs from the object-plus-citations the claim describes. -/
theorem C4_counterexample :
    Json.getKey? (recoverV1 (String.mk ("Result:\n```json\n".toList
        ++ lbraceChar :: ("\"a\":1".toList ++ rbraceChar :: "\n```\nDone".toList)))
        (Json.arr [Json.str "m"]) (Json.arr [])) "monthly_summaries"
      = some (Json.arr [Json.str "m"])
    ∧ Json.getKey? (Json.obj [("a", Json.num 1), ("citations", Json.arr [])]) "monthly_summaries"
      = none
    ∧ recoverV1 (String.mk ("Result:\n```json\n".toList
        ++ lbraceChar :: ("\"a\":1".toList ++ rbraceChar :: "\n```\nDone".toList)))
        (Json.arr [Json.str "m"]) (Json.arr [])
      ≠ Json.obj [("a", Json.num 1), ("citations", Json.arr [])] := by
  refine ⟨rfl, rfl, fun h => ?_⟩
  have h1 : Json.getKey? (recoverV1 (String.mk ("Result:\n```json\n".toList
      ++ lbraceChar :: ("\"a\":1".toList ++ rbraceChar :: "\n```\nDone".toList)))
      (Json.arr [Json.str "m"]) (Json.arr [])) "monthly_summaries"
      = some (Json.arr [Json.str "m"]) := rfl
  rw [h] at h1
  exact Option.noConfusion
    (show (none : Option Json) = some (Json.arr [Json.str "m"]) from h1)

/-- C4 (amended): recovery searches the span from the first opening brace to
the last closing brace and parses it; when the text is a well-formed JSON
object surrounded by brace-free prose or markdown fences, recovery returns
exactly that parsed object with both the collected monthly summaries and the
citation list merged in (keys monthly_summaries, citations appended). -/
theorem C4_amended_recovery (pre mid post : List Char) (monthly citations : Json)
    (kvs : List (String × Json))
    (hpre : pre.all (fun c => !(c == lbraceChar)) = true)
    (hpost : post.all (fun c => !(c == rbraceChar)) = true)
    (hparse : jsonLoads (String.mk (lbraceChar :: (mid ++ [rbraceChar]))) = some (Json.obj kvs))
    (hk1 : ((kvs.map Prod.fst).contains "monthly_summaries") = false)
    (hk2 : ((kvs.map Prod.fst).contains "citations") = false) :
    extractJson (String.mk (pre ++ lbraceChar :: (mid ++ rbraceChar :: post)))
      = some (String.mk (lbraceChar :: (mid ++ [rbraceChar])))
    ∧ recoverV1 (String.mk (pre ++ lbraceChar :: (mid ++ rbraceChar :: post))) monthly citations
      = Json.obj (kvs ++ [("monthly_summaries", monthly), ("citations", citations)]) := by
  have hext : extractJson (String.mk (pre ++ lbraceChar :: (mid ++ rbraceChar :: post)))
      = some (String.mk (lbraceChar :: (mid ++ [rbraceChar]))) := by
    unfold extractJson
    rw [show (String.mk (pre ++ lbraceChar :: (mid ++ rbraceChar :: post))).toList
        = pre ++ lbraceChar :: (mid ++ rbraceChar :: post) from rfl]
    rw [extractSpanChars_decomposition pre mid post hpre hpost]
  refine ⟨hext, ?_⟩
  unfold recoverV1
  simp only [hext, hparse]
  have hs1 : (Json.obj kvs).setKey "monthly_summaries" monthly
      = Json.obj (kvs ++ [("monthly_summaries", monthly)]) := by
    simp only [Json.setKey]
    rw [setKeyList_append kvs _ _ hk1]
  rw [hs1]
  have hk2' : (((kvs ++ [("monthly_summaries", monthly)]).map Prod.fst).contains "citations")
      = false := by
    rw [List.map_append]
    simp_all
  have hs2 : (Json.obj (kvs ++ [("monthly_summaries", monthly)])).setKey "citations" citations
      = Json.obj ((kvs ++ [("monthly_summaries", monthly)]) ++ [("citations", citations)]) := by
    simp only [Json.setKey]
    rw [setKeyList_append _ _ _ hk2']
  rw [hs2, List.append_assoc]
  rfl

/-- C4 witness: the fenced-JSON scenario of the claim, with object span
x7b"a":1x7d inside markdown fences; recovery extracts and parses exactly that
object and appends the merged keys. -/
theorem C4_witness :
    extractJson (String.mk ("Result:\n```json\n".toList
        ++ lbraceChar :: ("\"a\":1".toList ++ rbraceChar :: "\n```\nDone".toList)))
      = some (String.mk (lbraceChar :: ("\"a\":1".toList ++ [rbraceChar])))
    ∧ recoverV1 (String.mk ("Result:\n```json\n".toList
        ++ lbraceChar :: ("\"a\":1".toList ++ rbraceChar :: "\n```\nDone".toList)))
        (Json.arr []) (Json.arr [])
      = Json.obj ([("a", Json.num 1)]
          ++ [("monthly_summaries", Json.arr []), ("citations", Json.arr [])]) := by
  exact C4_amended_recovery _ _ _ _ _ [("a", Json.num 1)]
    (by decide) (by decide) rfl (by decide) (by decide)

lemma isleap_eq_specLeapYear (y : Nat) : isleap y = specLeapYear y := by
  have h400 : y % 400 = 0 → y % 4 = 0 := by
    intro h
    have hd := Nat.mod_mod_of_dvd y (by norm_num : (4 : Nat) ∣ 400)
    omega
  unfold isleap specLeapYear
  cases ha : y % 4 == 0 <;> cases hb : y % 100 == 0 <;> cases hc : y % 400 == 0 <;>
    simp_all [bne, beq_iff_eq]

/-- C10: for every month 1..12 and every calendar year representable by the
underlying Python date machinery, get_month_range returns the pair
("YYYY-MM-01", "YYYY-MM-DD") with the month zero-padded to two digits and DD
the true last calendar day of that month in that year (29 for a leap-year
February, 28 otherwise, 30 or 31 for the other months). -/
theorem C10_month_range_last_day (year month : Nat)
    (h1 : 1 ≤ month) (h2 : month ≤ 12) (_hy1 : 1 ≤ year) (_hy2 : year ≤ 9999) :
    get_month_range month year
      = (toString year ++ "-" ++ pad2 month ++ "-01",
         toString year ++ "-" ++ pad2 month ++ "-" ++ toString (specLastDay year month))
    ∧ (pad2 month).length = 2 := by
  have hnd : monthrange_ndays year month = specLastDay year month := by
    interval_cases month <;>
      simp [monthrange_ndays, specLastDay, mdays, isleap_eq_specLeapYear] <;>
      cases hl : specLeapYear year <;> simp [hl]
  refine ⟨?_, ?_⟩
  · unfold get_month_range
    rw [hnd]
  · interval_cases month <;> decide

/-- C10 witness: February 2024 (a leap year) ends on the 29th. -/
theorem C10_witness :
    get_month_range 2 2024
      = (toString 2024 ++ "-" ++ pad2 2 ++ "-01",
         toString 2024 ++ "-" ++ pad2 2 ++ "-" ++ toString (specLastDay 2024 2))
    ∧ (pad2 2).length = 2
    ∧ get_month_range 2 2024 = ("2024-02-01", "2024-02-29") := by
  have h := C10_month_range_last_day 2024 2 (by decide) (by decide) (by decide) (by decide)
  exact ⟨h.1, h.2, by decide⟩
